import Mathlib

/-!
# Verification of `calculator.py`: the safe expression evaluator

This file is a shallow embedding of the restricted arithmetic-expression
evaluator of `src/calculator.py`. The Python program parses an expression
string with the host parser (`ast.parse(..., mode="eval")`), then walks the
resulting tree with `SafeEvaluator.visit`, which dispatches on the node kind
and applies Python's numeric semantics to the operands.

Embedding conventions:

* Python numbers are modelled exactly in their host domains: `int` as `ℤ`
  (arbitrary precision, like Python), `bool` as `Bool` (a subclass of `int`
  in Python, numerically 0/1), and `float` idealized as exact rationals `ℚ`.
  The claims under study only exercise values that binary64 floats represent
  exactly, so no IEEE rounding is modelled.
* A float whose exact value is irrational (results of the transcendental
  `math` functions, or of a fractional power) is represented by the opaque
  tag `Value.sym`: such a value is a genuine real float in Python, but the
  model does not track which one. Division-by-zero tests treat `sym` as
  nonzero (no claim exercises a symbolic zero).
* A non-real complex value — in this program such values arise only from
  `**` with a negative base and a non-integral exponent, and from further
  arithmetic on such results — is represented by the tag `Value.complex`.
  Every complex value reachable this way is nonzero (its magnitude is
  `|b| ^ e > 0`).
* Python exceptions escaping `evaluate_expression` are modelled by the
  inductive `Err`: `zeroDivision` is the host `ZeroDivisionError`,
  `typeError`/`arityError` the host `TypeError`, `mathDomain` the
  `ValueError: math domain error` raised by `math` functions,
  `invalidArgument` the `ValueError`/`TypeError` raised by
  `math.factorial` on negative or non-integral input, `parseError` a
  failure of `ast.parse`, and the remaining constructors are the
  `ValueError`s raised explicitly by `SafeEvaluator`.
-/

/-- Errors that `evaluate_expression` can raise.  Each constructor stands for
one family of host exceptions; see the header comment. -/
inductive Err where
  | parseError : Err
  | unsupported : String → Err
  | unknownConstant : String → Err
  | unknownFunction : String → Err
  | zeroDivision : Err
  | typeError : String → Err
  | arityError : ℕ → ℕ → Err
  | mathDomain : Err
  | invalidArgument : Err
deriving DecidableEq, Repr

/-- Runtime values of the evaluator: the Python numeric tower restricted to
what the program can produce.  `sym` is a real float whose exact value the
model does not track; `complex` is a (nonzero) non-real complex value. -/
inductive Value where
  | int : ℤ → Value
  | float : ℚ → Value
  | bool : Bool → Value
  | sym : Value
  | complex : Value
deriving DecidableEq, Repr

namespace Value

/-- Integer view: Python `int`s and `bool`s (a `bool` is an `int` subclass
with numeric value 1 or 0). -/
def toZ? : Value → Option ℤ
  | .int n => some n
  | .bool b => some (if b then 1 else 0)
  | _ => none

/-- Exact rational view of a tracked real value. -/
def toQ? : Value → Option ℚ
  | .int n => some (n : ℚ)
  | .float q => some q
  | .bool b => some (if b then 1 else 0)
  | _ => none

/-- Python's `x == 0` test on the values the model tracks exactly.  Symbolic
reals and complex values are never model-zero (reachable complex values are
genuinely nonzero). -/
def isZero : Value → Bool
  | .int n => n == 0
  | .float q => q == 0
  | .bool b => !b
  | _ => false

/-- Tag test for non-real complex values. -/
def isComplexV : Value → Bool
  | .complex => true
  | _ => false

end Value

/-- The binary operators admitted by `SafeEvaluator._apply_binop`. -/
inductive BOp where
  | add | sub | mult | div | floorDiv | mod | pow
deriving DecidableEq, Repr

/-- The unary operators admitted by `SafeEvaluator._apply_unaryop`. -/
inductive UOp where
  | uadd | usub
deriving DecidableEq, Repr

/-- Python's numeric promotion for `+`, `-`, `*`: `int op int` stays `int`
(bools coerce to ints), any float makes the result a float, any complex
makes it complex, and an untracked real operand gives an untracked real. -/
def binArith (fz : ℤ → ℤ → ℤ) (fq : ℚ → ℚ → ℚ) (l r : Value) : Value :=
  if l.isComplexV || r.isComplexV then .complex
  else
    match l.toZ?, r.toZ? with
    | some a, some b => .int (fz a b)
    | _, _ =>
      match l.toQ?, r.toQ? with
      | some a, some b => .float (fq a b)
      | _, _ => .sym

/-- `SafeEvaluator._apply_binop`: dispatch on the operator and apply the host
semantics of `+ - * / // % **` to the evaluated operands.

* `/` is true division: it always produces a float (or complex), and raises
  `ZeroDivisionError` on an exactly-zero divisor.
* `//` and `%` are floor division and floor modulo (CPython computes, for
  both ints and floats, the floor of the exact quotient and the matching
  remainder); they are not defined on complex operands (host `TypeError`),
  and raise `ZeroDivisionError` on a zero divisor.
* `**` keeps `int ** nonnegative int` integral, produces a float for a
  negative integral exponent (raising `ZeroDivisionError` on `0 ** negative`),
  and for a non-integral exponent produces a complex value when the base is
  negative — silently, with no error. -/
def applyBinop : BOp → Value → Value → Except Err Value
  | .add, l, r => .ok (binArith (fun a b => a + b) (fun a b => a + b) l r)
  | .sub, l, r => .ok (binArith (fun a b => a - b) (fun a b => a - b) l r)
  | .mult, l, r => .ok (binArith (fun a b => a * b) (fun a b => a * b) l r)
  | .div, l, r =>
    if r.isZero then .error .zeroDivision
    else if l.isComplexV || r.isComplexV then .ok .complex
    else
      match l.toQ?, r.toQ? with
      | some a, some b => .ok (.float (a / b))
      | _, _ => .ok .sym
  | .floorDiv, l, r =>
    if l.isComplexV || r.isComplexV then
      .error (.typeError "unsupported operand type for // or %: complex")
    else if r.isZero then .error .zeroDivision
    else
      match l.toZ?, r.toZ? with
      | some a, some b => .ok (.int ⌊(a : ℚ) / (b : ℚ)⌋)
      | _, _ =>
        match l.toQ?, r.toQ? with
        | some a, some b => .ok (.float ((⌊a / b⌋ : ℤ) : ℚ))
        | _, _ => .ok .sym
  | .mod, l, r =>
    if l.isComplexV || r.isComplexV then
      .error (.typeError "unsupported operand type for // or %: complex")
    else if r.isZero then .error .zeroDivision
    else
      match l.toZ?, r.toZ? with
      | some a, some b => .ok (.int (a - b * ⌊(a : ℚ) / (b : ℚ)⌋))
      | _, _ =>
        match l.toQ?, r.toQ? with
        | some a, some b => .ok (.float (a - b * ((⌊a / b⌋ : ℤ) : ℚ)))
        | _, _ => .ok .sym
  | .pow, l, r =>
    if l.isComplexV || r.isComplexV then
      if r.isComplexV && l.isZero then .error .zeroDivision else .ok .complex
    else
      match l.toZ?, r.toZ? with
      | some a, some b =>
        if 0 ≤ b then .ok (.int (a ^ b.toNat))
        else if a = 0 then .error .zeroDivision
        else .ok (.float ((a : ℚ) ^ b))
      | _, _ =>
        match l.toQ?, r.toQ? with
        | some a, some e =>
          if e.den = 1 then
            if a = 0 ∧ e.num < 0 then .error .zeroDivision
            else .ok (.float (a ^ e.num))
          else
            if a < 0 then .ok .complex
            else if a = 0 then
              if e < 0 then .error .zeroDivision else .ok (.float 0)
            else .ok .sym
        | _, _ => .ok .sym

/-- `SafeEvaluator._apply_unaryop`: unary `+` and `-`.  As in Python, both
coerce a `bool` operand to an `int`. -/
def applyUnaryop : UOp → Value → Value
  | .uadd, v =>
    match v.toZ? with
    | some n => .int n
    | none =>
      match v with
      | .float q => .float q
      | w => w
  | .usub, v =>
    match v.toZ? with
    | some n => .int (-n)
    | none =>
      match v with
      | .float q => .float (-q)
      | w => w

/-- `ALLOWED_CONSTANTS`: `pi`, `e`, `tau` as the exact rational values of the
binary64 floats `math.pi`, `math.e`, `math.tau`. -/
def ALLOWED_CONSTANTS : List (String × ℚ) :=
  [("pi", (884279719003555 : ℚ) / 281474976710656),
   ("e", (6121026514868073 : ℚ) / 2251799813685248),
   ("tau", (1768559438007110 : ℚ) / 281474976710656)]

/-- The names in the `ALLOWED_FUNCTIONS` table, in source order. -/
def ALLOWED_FUNCTIONS : List String :=
  ["sin", "cos", "tan", "asin", "acos", "atan", "sinh", "cosh", "tanh",
   "sqrt", "log", "log10", "log2", "exp", "fabs", "ceil", "floor",
   "factorial", "deg", "rad"]

/-- A unary `math` function defined on every real argument (`sin`, `cos`,
`tan`, `atan`, the hyperbolics, `exp`, `degrees`, `radians`): any real operand
yields a real float (untracked by the model); a complex operand raises the
host `TypeError`. -/
def totalRealFun (v : Value) : Except Err Value :=
  if v.isComplexV then .error (.typeError "must be real number") else .ok .sym

/-- `math.sqrt`: domain `x ≥ 0`, else `ValueError: math domain error`. -/
def sqrtFun (v : Value) : Except Err Value :=
  match v.toQ? with
  | some a => if a < 0 then .error .mathDomain else .ok .sym
  | none => totalRealFun v

/-- One-argument `math.log` (also `log10`, `log2`): domain `x > 0`. -/
def logFun (v : Value) : Except Err Value :=
  match v.toQ? with
  | some a => if a ≤ 0 then .error .mathDomain else .ok .sym
  | none => totalRealFun v

/-- Two-argument `math.log(x, base)`, computed by the host as
`log(x)/log(base)`: both arguments must be in the domain of `log`, and a base
of exactly 1 divides by `log(1) = 0`. -/
def log2Fun (x b : Value) : Except Err Value :=
  match x.toQ?, b.toQ? with
  | some a, some bb =>
    if a ≤ 0 ∨ bb ≤ 0 then .error .mathDomain
    else if bb = 1 then .error .zeroDivision
    else .ok .sym
  | _, _ =>
    if x.isComplexV || b.isComplexV then .error (.typeError "must be real number")
    else
      match x.toQ? with
      | some a => if a ≤ 0 then .error .mathDomain else .ok .sym
      | none => .ok .sym

/-- `math.asin` / `math.acos`: domain `|x| ≤ 1`. -/
def arcFun (v : Value) : Except Err Value :=
  match v.toQ? with
  | some a => if 1 < |a| then .error .mathDomain else .ok .sym
  | none => totalRealFun v

/-- `math.fabs`: exact absolute value, always returned as a float. -/
def fabsFun (v : Value) : Except Err Value :=
  match v.toQ? with
  | some a => .ok (.float |a|)
  | none => totalRealFun v

/-- `math.ceil` / `math.floor`: exact, and return a Python `int`. -/
def ceilFun (v : Value) : Except Err Value :=
  match v.toQ? with
  | some a => .ok (.int ⌈a⌉)
  | none => totalRealFun v

/-- `math.floor`, see `ceilFun`. -/
def floorFun (v : Value) : Except Err Value :=
  match v.toQ? with
  | some a => .ok (.int ⌊a⌋)
  | none => totalRealFun v

/-- `math.factorial`: defined only on non-negative integral arguments
(bools count as the ints 0 and 1); a negative int raises `ValueError` and a
float raises (in current CPython) `TypeError` — both surfaced as the spec's
`InvalidArgument`. -/
def factorialFun (v : Value) : Except Err Value :=
  match v with
  | .int n => if n < 0 then .error .invalidArgument else .ok (.int (Nat.factorial n.toNat))
  | .bool _ => .ok (.int 1)
  | _ => .error .invalidArgument

/-- Dispatch for the fixed-arity-1 entries of `ALLOWED_FUNCTIONS`. -/
def applyUnaryFun (f : String) (v : Value) : Except Err Value :=
  if f = "sqrt" then sqrtFun v
  else if f = "log10" ∨ f = "log2" then logFun v
  else if f = "asin" ∨ f = "acos" then arcFun v
  else if f = "fabs" then fabsFun v
  else if f = "ceil" then ceilFun v
  else if f = "floor" then floorFun v
  else if f = "factorial" then factorialFun v
  else totalRealFun v

/-- `func(*args)`: the host applies the looked-up `math` function to the
evaluated positional arguments.  Every table entry except `log` is a unary C
function and raises `TypeError` (an arity error carrying the expected and
actual counts) on any other argument count; `math.log` optionally takes a
second argument, the base. -/
def applyFunc (f : String) (args : List Value) : Except Err Value :=
  if f = "log" then
    match args with
    | [x] => logFun x
    | [x, b] => log2Fun x b
    | _ => .error (.arityError 2 args.length)
  else
    match args with
    | [x] => applyUnaryFun f x
    | _ => .error (.arityError 1 args.length)

example : applyBinop .pow (.int (-2)) (.float (1/2)) = .ok .complex := by
  with_unfolding_all rfl
example : applyBinop .div (.int 1) (.int 0) = .error .zeroDivision := rfl
example : applyBinop .pow (.int 2) (.int 9) = .ok (.int 512) := rfl
example : applyBinop .floorDiv (.float (-15/2)) (.float 2) = .ok (.float (-4)) := by
  with_unfolding_all rfl
example : applyFunc "log" [.int 10, .int 10] = .ok .sym := rfl
example : applyFunc "sin" [.int 1, .int 2] = .error (.arityError 1 2) := rfl
example : applyFunc "factorial" [.int 4] = .ok (.int 24) := rfl

/-- The constant literals the host parser can put in an `ast.Constant` node
for the inputs under study.  Python's `True`/`False` are constants of type
`bool`, which is a subclass of `int`. -/
inductive PyConst where
  | int : ℤ → PyConst
  | float : ℚ → PyConst
  | bool : Bool → PyConst
  | str : String → PyConst
  | pynone : PyConst
deriving DecidableEq, Repr

mutual
/-- The fragment of the host AST that `SafeEvaluator.visit` inspects:
`ast.Constant`, `ast.Name`, `ast.UnaryOp`, `ast.BinOp` and `ast.Call`
(whose `func` is itself an expression and whose keyword arguments carry a
name and a value expression). -/
inductive PyExpr where
  | const : PyConst → PyExpr
  | name : String → PyExpr
  | unaryOp : UOp → PyExpr → PyExpr
  | binOp : BOp → PyExpr → PyExpr → PyExpr
  | call : PyExpr → PyExprList → PyKwList → PyExpr

/-- Ordered positional-argument list of a `Call` node. -/
inductive PyExprList where
  | nil : PyExprList
  | cons : PyExpr → PyExprList → PyExprList

/-- Keyword arguments of a `Call` node (`node.keywords`). -/
inductive PyKwList where
  | nil : PyKwList
  | cons : String → PyExpr → PyKwList → PyKwList
end

/-- `SafeEvaluator._lookup_name`: resolve an identifier against
`ALLOWED_CONSTANTS`. -/
def lookupName (id : String) : Except Err Value :=
  match ALLOWED_CONSTANTS.find? (fun p => p.1 == id) with
  | some p => .ok (.float p.2)
  | none => .error (.unknownConstant id)

mutual
/-- `SafeEvaluator.visit`: dispatch on the node kind.  A `Constant` whose
payload is an `int` or `float` (which includes `bool`) evaluates to itself;
a `Name` is looked up in the constant table; unary and binary operators
evaluate their operands first (left before right); a `Call` must have a
plain-`Name` callee that is in the function table, then evaluates its
positional arguments in order, then rejects keyword arguments, then applies
the function; anything else is an unsupported expression. -/
def visit : PyExpr → Except Err Value
  | .const (.int n) => .ok (.int n)
  | .const (.float q) => .ok (.float q)
  | .const (.bool b) => .ok (.bool b)
  | .const (.str _) => .error (.unsupported "Unsupported expression")
  | .const .pynone => .error (.unsupported "Unsupported expression")
  | .name id => lookupName id
  | .unaryOp op e =>
    match visit e with
    | .error er => .error er
    | .ok v => .ok (applyUnaryop op v)
  | .binOp op l r =>
    match visit l with
    | .error er => .error er
    | .ok lv =>
      match visit r with
      | .error er => .error er
      | .ok rv => applyBinop op lv rv
  | .call f args kws =>
    match f with
    | .name fname =>
      if ALLOWED_FUNCTIONS.contains fname then
        match visitList args with
        | .error er => .error er
        | .ok vs =>
          match kws with
          | .nil => applyFunc fname vs
          | .cons _ _ _ => .error (.unsupported "Keyword arguments are not supported")
      else .error (.unknownFunction fname)
    | _ => .error (.unsupported "Only direct function calls are allowed")

/-- `[self.visit(arg) for arg in node.args]`: evaluate the positional
arguments left to right, propagating the first error. -/
def visitList : PyExprList → Except Err (List Value)
  | .nil => .ok []
  | .cons e es =>
    match visit e with
    | .error er => .error er
    | .ok v =>
      match visitList es with
      | .error er => .error er
      | .ok vs => .ok (v :: vs)
end

mutual
/-- Nesting depth of an AST: the recursion depth `visit` needs. -/
def exprDepth : PyExpr → ℕ
  | .const _ => 1
  | .name _ => 1
  | .unaryOp _ e => exprDepth e + 1
  | .binOp _ l r => max (exprDepth l) (exprDepth r) + 1
  | .call f args kws => max (exprDepth f) (max (exprListDepth args) (kwListDepth kws)) + 1

/-- Depth of a positional-argument list. -/
def exprListDepth : PyExprList → ℕ
  | .nil => 0
  | .cons e es => max (exprDepth e) (exprListDepth es)

/-- Depth of a keyword-argument list. -/
def kwListDepth : PyKwList → ℕ
  | .nil => 0
  | .cons _ e ks => max (exprDepth e) (kwListDepth ks)
end

/-- Tokens of the expression grammar accepted for this program: numbers,
identifiers, the seven binary operators, unary signs, parentheses and the
argument separator. -/
inductive Tok where
  | int : ℕ → Tok
  | float : ℚ → Tok
  | ident : String → Tok
  | plus | minus | star | slash | dslash | percent | dstar
  | lparen | rparen | comma
deriving DecidableEq, Repr

/-- Read a run of decimal digits, accumulating their value. -/
def readNat (acc : ℕ) : List Char → ℕ × List Char
  | [] => (acc, [])
  | c :: cs =>
    if c.isDigit then readNat (acc * 10 + (c.toNat - 48)) cs else (acc, c :: cs)

/-- Read the fractional digits after a decimal point, returning their value
and their count. -/
def readFrac (acc : ℕ) (k : ℕ) : List Char → ℕ × ℕ × List Char
  | [] => (acc, k, [])
  | c :: cs =>
    if c.isDigit then readFrac (acc * 10 + (c.toNat - 48)) (k + 1) cs
    else (acc, k, c :: cs)

/-- Read the remaining characters of an identifier. -/
def readIdent (acc : List Char) : List Char → List Char × List Char
  | [] => (acc.reverse, [])
  | c :: cs =>
    if c.isAlpha || c.isDigit || c = '_' then readIdent (c :: acc) cs
    else (acc.reverse, c :: cs)

/-- Tokenizer for the expression text, modelling the host tokenization of the
grammar fragment this program accepts.  `fuel` bounds the number of steps;
one unit per emitted token or skipped space, so `fuel = length` always
suffices.  Any character outside the fragment is a syntax error. -/
def tokenizeAux : ℕ → List Char → Except Err (List Tok)
  | _, [] => .ok []
  | 0, _ :: _ => .error .parseError
  | n + 1, c :: cs =>
    if c = ' ' then tokenizeAux n cs
    else if c.isDigit then
      match readNat (c.toNat - 48) cs with
      | (ip, rest) =>
        match rest with
        | '.' :: rest2 =>
          match readFrac 0 0 rest2 with
          | (fv, k, rest3) =>
            match tokenizeAux n rest3 with
            | .error er => .error er
            | .ok ts => .ok (.float ((ip : ℚ) + (fv : ℚ) / ((10 : ℚ) ^ k)) :: ts)
        | _ =>
          match tokenizeAux n rest with
          | .error er => .error er
          | .ok ts => .ok (.int ip :: ts)
    else if c.isAlpha || c = '_' then
      match readIdent [c] cs with
      | (name, rest) =>
        match tokenizeAux n rest with
        | .error er => .error er
        | .ok ts => .ok (.ident (String.mk name) :: ts)
    else if c = '*' then
      match cs with
      | '*' :: rest =>
        match tokenizeAux n rest with
        | .error er => .error er
        | .ok ts => .ok (.dstar :: ts)
      | _ =>
        match tokenizeAux n cs with
        | .error er => .error er
        | .ok ts => .ok (.star :: ts)
    else if c = '/' then
      match cs with
      | '/' :: rest =>
        match tokenizeAux n rest with
        | .error er => .error er
        | .ok ts => .ok (.dslash :: ts)
      | _ =>
        match tokenizeAux n cs with
        | .error er => .error er
        | .ok ts => .ok (.slash :: ts)
    else if c = '+' then
      match tokenizeAux n cs with
      | .error er => .error er
      | .ok ts => .ok (.plus :: ts)
    else if c = '-' then
      match tokenizeAux n cs with
      | .error er => .error er
      | .ok ts => .ok (.minus :: ts)
    else if c = '%' then
      match tokenizeAux n cs with
      | .error er => .error er
      | .ok ts => .ok (.percent :: ts)
    else if c = '(' then
      match tokenizeAux n cs with
      | .error er => .error er
      | .ok ts => .ok (.lparen :: ts)
    else if c = ')' then
      match tokenizeAux n cs with
      | .error er => .error er
      | .ok ts => .ok (.rparen :: ts)
    else if c = ',' then
      match tokenizeAux n cs with
      | .error er => .error er
      | .ok ts => .ok (.comma :: ts)
    else .error .parseError

/-- Tokenize an expression string.  `ast.parse(..., mode="eval")` rejects
leading whitespace with an `IndentationError` (the expression would be an
unexpectedly indented line), so a leading space is a syntax error here;
whitespace between tokens is skipped by `tokenizeAux`. -/
def tokenize (s : String) : Except Err (List Tok) :=
  match s.toList with
  | ' ' :: _ => .error .parseError
  | cs => tokenizeAux s.length cs

mutual
/-- `expression`: a `term`, followed by left-associative `+`/`-` chains. -/
def parseExprA : ℕ → List Tok → Except Err (PyExpr × List Tok)
  | 0, _ => .error .parseError
  | n + 1, ts =>
    match parseTermA n ts with
    | .error er => .error er
    | .ok (t, rest) => parseAddLoop n t rest

/-- Left-associative folding of `+` and `-`. -/
def parseAddLoop : ℕ → PyExpr → List Tok → Except Err (PyExpr × List Tok)
  | 0, _, _ => .error .parseError
  | n + 1, acc, ts =>
    match ts with
    | .plus :: rest =>
      match parseTermA n rest with
      | .error er => .error er
      | .ok (t, rest2) => parseAddLoop n (.binOp .add acc t) rest2
    | .minus :: rest =>
      match parseTermA n rest with
      | .error er => .error er
      | .ok (t, rest2) => parseAddLoop n (.binOp .sub acc t) rest2
    | _ => .ok (acc, ts)

/-- `term`: a `factor`, followed by left-associative `*`, `/`, `//`, `%`
chains. -/
def parseTermA : ℕ → List Tok → Except Err (PyExpr × List Tok)
  | 0, _ => .error .parseError
  | n + 1, ts =>
    match parseFactorA n ts with
    | .error er => .error er
    | .ok (f, rest) => parseMulLoop n f rest

/-- Left-associative folding of `*`, `/`, `//`, `%`. -/
def parseMulLoop : ℕ → PyExpr → List Tok → Except Err (PyExpr × List Tok)
  | 0, _, _ => .error .parseError
  | n + 1, acc, ts =>
    match ts with
    | .star :: rest =>
      match parseFactorA n rest with
      | .error er => .error er
      | .ok (f, rest2) => parseMulLoop n (.binOp .mult acc f) rest2
    | .slash :: rest =>
      match parseFactorA n rest with
      | .error er => .error er
      | .ok (f, rest2) => parseMulLoop n (.binOp .div acc f) rest2
    | .dslash :: rest =>
      match parseFactorA n rest with
      | .error er => .error er
      | .ok (f, rest2) => parseMulLoop n (.binOp .floorDiv acc f) rest2
    | .percent :: rest =>
      match parseFactorA n rest with
      | .error er => .error er
      | .ok (f, rest2) => parseMulLoop n (.binOp .mod acc f) rest2
    | _ => .ok (acc, ts)

/-- `factor`: unary `+`/`-` applied to a `factor` (so a sign binds looser
than `**` on its left), or a `power`. -/
def parseFactorA : ℕ → List Tok → Except Err (PyExpr × List Tok)
  | 0, _ => .error .parseError
  | n + 1, .plus :: rest =>
    match parseFactorA n rest with
    | .error er => .error er
    | .ok (f, rest2) => .ok (.unaryOp .uadd f, rest2)
  | n + 1, .minus :: rest =>
    match parseFactorA n rest with
    | .error er => .error er
    | .ok (f, rest2) => .ok (.unaryOp .usub f, rest2)
  | n + 1, ts => parsePowerA n ts

/-- `power`: an atom, optionally `** factor` — the exponent is a `factor`,
which makes `**` right-associative and lets a unary sign follow it. -/
def parsePowerA : ℕ → List Tok → Except Err (PyExpr × List Tok)
  | 0, _ => .error .parseError
  | n + 1, ts =>
    match parseAtomA n ts with
    | .error er => .error er
    | .ok (b, rest) =>
      match rest with
      | .dstar :: rest2 =>
        match parseFactorA n rest2 with
        | .error er => .error er
        | .ok (e, rest3) => .ok (.binOp .pow b e, rest3)
      | _ => .ok (b, rest)

/-- `atom`: a literal, `True`/`False`, an identifier or call, or a
parenthesized expression. -/
def parseAtomA : ℕ → List Tok → Except Err (PyExpr × List Tok)
  | 0, _ => .error .parseError
  | _ + 1, .int m :: rest => .ok (.const (.int (m : ℤ)), rest)
  | _ + 1, .float q :: rest => .ok (.const (.float q), rest)
  | n + 1, .ident s :: rest =>
    if s = "True" then .ok (.const (.bool true), rest)
    else if s = "False" then .ok (.const (.bool false), rest)
    else if s = "None" then .ok (.const .pynone, rest)
    else
      match rest with
      | .lparen :: .rparen :: rest3 => .ok (.call (.name s) .nil .nil, rest3)
      | .lparen :: rest2 =>
        match parseArgsA n rest2 with
        | .error er => .error er
        | .ok (args, r) =>
          match r with
          | .rparen :: r2 => .ok (.call (.name s) args .nil, r2)
          | _ => .error .parseError
      | _ => .ok (.name s, rest)
  | n + 1, .lparen :: rest =>
    match parseExprA n rest with
    | .error er => .error er
    | .ok (e, r) =>
      match r with
      | .rparen :: r2 => .ok (e, r2)
      | _ => .error .parseError
  | _ + 1, _ => .error .parseError

/-- Comma-separated positional arguments of a call. -/
def parseArgsA : ℕ → List Tok → Except Err (PyExprList × List Tok)
  | 0, _ => .error .parseError
  | n + 1, ts =>
    match parseExprA n ts with
    | .error er => .error er
    | .ok (e, r) =>
      match r with
      | .comma :: r2 =>
        match parseArgsA n r2 with
        | .error er => .error er
        | .ok (es, r3) => .ok (.cons e es, r3)
      | _ => .ok (.cons e .nil, r)
end

/-- `ast.parse(expression, mode="eval")` restricted to this program's
grammar fragment: tokenize, parse a full expression, and require that every
token is consumed.  The fuel `10 * length + 10` dominates the recursion
depth of the descent (at most a constant number of levels per token). -/
def parseAst (ts : List Tok) : Except Err PyExpr :=
  match parseExprA (10 * ts.length + 10) ts with
  | .error er => .error er
  | .ok (e, []) => .ok e
  | .ok (_, _ :: _) => .error .parseError

/-- `evaluate_expression`: parse the text and evaluate the tree. -/
def evaluate_expression (s : String) : Except Err Value :=
  match tokenize s with
  | .error er => .error er
  | .ok ts =>
    match parseAst ts with
    | .error er => .error er
    | .ok a => visit a

example : evaluate_expression "2 ** 3 ** 2" = .ok (.int 512) := by
  with_unfolding_all rfl
example : evaluate_expression "-2 ** 2" = .ok (.int (-4)) := by
  with_unfolding_all rfl
example : evaluate_expression "2 + 3 * 4" = .ok (.int 14) := by
  with_unfolding_all rfl
example : evaluate_expression "(-2) ** 0.5" = .ok .complex := by
  with_unfolding_all rfl
example : evaluate_expression "log(10, 10)" = .ok .sym := by
  with_unfolding_all rfl
example : evaluate_expression "factorial(4)" = .ok (.int 24) := by
  with_unfolding_all rfl
example : evaluate_expression "factorial(3.5)" = .error .invalidArgument := by
  with_unfolding_all rfl
example : evaluate_expression "1/0" = .error .zeroDivision := by
  with_unfolding_all rfl
example : evaluate_expression "True" = .ok (.bool true) := by
  with_unfolding_all rfl
example : evaluate_expression "(-2) ** 0.5 // 0"
    = .error (.typeError "unsupported operand type for // or %: complex") := by
  with_unfolding_all rfl
example : evaluate_expression "sin(1, 2)" = .error (.arityError 1 2) := by
  with_unfolding_all rfl

/-- A value that is exactly zero is not a complex value. -/
lemma isZero_isComplexV_false {r : Value} (h : r.isZero = true) :
    r.isComplexV = false := by
  cases r <;> simp_all [Value.isZero, Value.isComplexV]

/-- C1 counterexample: on `"(-2) ** 0.5"` the evaluator silently returns a
complex value; it does not fail with `MathDomainError` as the claim states. -/
theorem C1_counterexample :
    evaluate_expression "(-2) ** 0.5" = .ok .complex ∧
    evaluate_expression "(-2) ** 0.5" ≠ .error .mathDomain := by
  have h : evaluate_expression "(-2) ** 0.5" = .ok .complex := by
    with_unfolding_all rfl
  exact ⟨h, by simp [h]⟩

/-- C1 (amended): `l ** r` with a negative base and a non-integral exponent
silently evaluates to a complex value — the host promotes to complex — and no
binary operator ever raises `MathDomainError`. -/
theorem C1_pow_negative_base :
    (∀ b e : ℚ, b < 0 → e.den ≠ 1 →
      applyBinop .pow (.float b) (.float e) = .ok .complex) ∧
    (∀ n : ℤ, ∀ e : ℚ, n < 0 → e.den ≠ 1 →
      applyBinop .pow (.int n) (.float e) = .ok .complex) ∧
    (∀ op l r, applyBinop op l r ≠ .error .mathDomain) := by
  refine ⟨?_, ?_, ?_⟩
  · intro b e hb hden
    simp [applyBinop, Value.isComplexV, Value.toZ?, Value.toQ?, hden, hb,
      not_lt.mpr hb.le]
  · intro n e hn hden
    have hb : (n : ℚ) < 0 := by exact_mod_cast hn
    simp [applyBinop, Value.isComplexV, Value.toZ?, Value.toQ?, hden, hb]
  · intro op l r h
    cases op <;> simp only [applyBinop] at h <;>
      (repeat' split at h) <;> simp_all

/-- C1 witness: the amended theorem applied at base `-2`, exponent `0.5`. -/
theorem C1_witness :
    applyBinop .pow (.float (-2)) (.float (1/2)) = .ok .complex :=
  C1_pow_negative_base.1 (-2) (1/2) (by norm_num) (by with_unfolding_all decide)

/-- C2 counterexample: the literal `"2"` evaluates to the Python `int` 2, not
to a float — so not every literal is promoted to float64. -/
theorem C2_counterexample :
    evaluate_expression "2" = .ok (.int 2) ∧ Value.int 2 ≠ Value.float 2 := by
  constructor
  · with_unfolding_all rfl
  · simp

/-- C2 (amended): the evaluator performs no coercion of its own: literals
keep their host type (`int` stays `int`, `bool` stays `bool`), integer
arithmetic stays in the integer domain, and floats arise only from the host
promotion rules (true division always yields a float, and any float operand
makes the result a float). -/
theorem C2_native_numeric_tower :
    (∀ n : ℤ, visit (.const (.int n)) = .ok (.int n)) ∧
    (∀ q : ℚ, visit (.const (.float q)) = .ok (.float q)) ∧
    (∀ b : Bool, visit (.const (.bool b)) = .ok (.bool b)) ∧
    (∀ x y : ℤ, applyBinop .add (.int x) (.int y) = .ok (.int (x + y))) ∧
    (∀ x y : ℤ, y ≠ 0 →
      applyBinop .div (.int x) (.int y) = .ok (.float ((x : ℚ) / (y : ℚ)))) ∧
    (∀ x : ℤ, ∀ q : ℚ,
      applyBinop .mult (.int x) (.float q) = .ok (.float ((x : ℚ) * q))) := by
  refine ⟨fun n => rfl, fun q => rfl, fun b => rfl, fun x y => rfl, ?_, fun x q => rfl⟩
  intro x y hy
  simp [applyBinop, Value.isZero, Value.isComplexV, Value.toQ?, hy]

/-- C2 witness: the amended theorem applied at `1 / 2`. -/
theorem C2_witness :
    applyBinop .div (.int 1) (.int 2) = .ok (.float ((1 : ℚ) / (2 : ℚ))) :=
  C2_native_numeric_tower.2.2.2.2.1 1 2 (by decide)

/-- C3 counterexample: `"log(10, 10)"` evaluates successfully (`math.log`
accepts an optional base argument), instead of failing with an arity error
as the claim states. -/
theorem C3_counterexample : evaluate_expression "log(10, 10)" = .ok .sym := by
  with_unfolding_all rfl

/-- C3 (amended): every table entry except `log` is a fixed-arity-1 function
and any other argument count fails with an arity error (the host `TypeError`
carrying expected and actual counts); `log` alone also accepts a second
argument, so `"log(10, 10)"` succeeds while `"sin(1, 2)"` fails. -/
theorem C3_fixed_arity_except_log :
    (∀ f : String, ∀ args : List Value, f ≠ "log" → args.length ≠ 1 →
      applyFunc f args = .error (.arityError 1 args.length)) ∧
    evaluate_expression "sin(1, 2)" = .error (.arityError 1 2) ∧
    evaluate_expression "log(10, 10)" = .ok .sym ∧
    evaluate_expression "log(10)" = .ok .sym := by
  refine ⟨?_, by with_unfolding_all rfl, by with_unfolding_all rfl,
    by with_unfolding_all rfl⟩
  intro f args hf hn
  match args with
  | [] => simp [applyFunc, hf]
  | [x] => exact absurd rfl hn
  | x :: y :: zs => simp [applyFunc, hf]

/-- C3 witness: the amended theorem applied at `sin` with two arguments. -/
theorem C3_witness :
    applyFunc "sin" [.int 1, .int 2] = .error (.arityError 1 2) :=
  C3_fixed_arity_except_log.1 "sin" [.int 1, .int 2] (by decide) (by decide)

/-- C4 counterexample: with a complex left operand (from a fractional power
of a negative base), floor division by zero raises the host `TypeError`, not
`DivisionByZero` as the claim states for every operand pair. -/
theorem C4_counterexample :
    evaluate_expression "(-2) ** 0.5 // 0"
      = .error (.typeError "unsupported operand type for // or %: complex") ∧
    evaluate_expression "(-2) ** 0.5 // 0" ≠ .error .zeroDivision := by
  have h : evaluate_expression "(-2) ** 0.5 // 0"
      = .error (.typeError "unsupported operand type for // or %: complex") := by
    with_unfolding_all rfl
  exact ⟨h, by simp [h]⟩

/-- C4 (amended): with an exactly-zero divisor, `/` always fails with
`DivisionByZero`; `//` and `%` fail with `DivisionByZero` whenever the left
operand is not complex, and with the host `TypeError` when it is. -/
theorem C4_zero_divisor (l r : Value) (hr : r.isZero = true) :
    applyBinop .div l r = .error .zeroDivision ∧
    (l.isComplexV = false →
      applyBinop .floorDiv l r = .error .zeroDivision ∧
      applyBinop .mod l r = .error .zeroDivision) ∧
    (l.isComplexV = true →
      applyBinop .floorDiv l r
        = .error (.typeError "unsupported operand type for // or %: complex") ∧
      applyBinop .mod l r
        = .error (.typeError "unsupported operand type for // or %: complex")) := by
  have hrc : r.isComplexV = false := isZero_isComplexV_false hr
  refine ⟨by simp [applyBinop, hr], ?_, ?_⟩
  · intro hlc
    constructor <;> simp [applyBinop, hr, hrc, hlc]
  · intro hlc
    constructor <;> simp [applyBinop, hlc]

/-- C4 witness: the amended theorem applied to `1` and `0`, giving the
`"1/0"`, `"1//0"`, `"1%0"` behavior of the claim. -/
theorem C4_witness :
    applyBinop .div (.int 1) (.int 0) = .error .zeroDivision ∧
    applyBinop .floorDiv (.int 1) (.int 0) = .error .zeroDivision ∧
    applyBinop .mod (.int 1) (.int 0) = .error .zeroDivision := by
  have h := C4_zero_divisor (.int 1) (.int 0) (by decide)
  exact ⟨h.1, (h.2.1 (by decide)).1, (h.2.1 (by decide)).2⟩

/-- C5: with a nonzero divisor, `//` returns the floor of the exact quotient
(rounding toward negative infinity, not truncation) and `%` returns the
matching remainder, which is zero or carries the sign of the divisor: it lies
in `[0, b)` for `b > 0` and in `(b, 0]` for `b < 0`; the same holds on the
integer path. -/
theorem C5_floor_division_mod (a b : ℚ) (hb : b ≠ 0) :
    applyBinop .floorDiv (.float a) (.float b)
      = .ok (.float ((⌊a / b⌋ : ℤ) : ℚ)) ∧
    applyBinop .mod (.float a) (.float b)
      = .ok (.float (a - b * ((⌊a / b⌋ : ℤ) : ℚ))) ∧
    b * ((⌊a / b⌋ : ℤ) : ℚ) + (a - b * ((⌊a / b⌋ : ℤ) : ℚ)) = a ∧
    (0 < b → 0 ≤ a - b * ((⌊a / b⌋ : ℤ) : ℚ) ∧ a - b * ((⌊a / b⌋ : ℤ) : ℚ) < b) ∧
    (b < 0 → b < a - b * ((⌊a / b⌋ : ℤ) : ℚ) ∧ a - b * ((⌊a / b⌋ : ℤ) : ℚ) ≤ 0) ∧
    (∀ x y : ℤ, y ≠ 0 →
      applyBinop .floorDiv (.int x) (.int y)
        = .ok (.int ⌊(x : ℚ) / (y : ℚ)⌋) ∧
      applyBinop .mod (.int x) (.int y)
        = .ok (.int (x - y * ⌊(x : ℚ) / (y : ℚ)⌋))) := by
  have key : a - b * ((⌊a / b⌋ : ℤ) : ℚ) = b * Int.fract (a / b) := by
    rw [Int.fract]
    field_simp
  have h0 := Int.fract_nonneg (a / b)
  have h1 := Int.fract_lt_one (a / b)
  refine ⟨?_, ?_, by ring, ?_, ?_, ?_⟩
  · simp [applyBinop, Value.isComplexV, Value.isZero, Value.toZ?, Value.toQ?, hb]
  · simp [applyBinop, Value.isComplexV, Value.isZero, Value.toZ?, Value.toQ?, hb]
  · intro hpos
    rw [key]
    constructor
    · exact mul_nonneg hpos.le h0
    · exact (mul_lt_iff_lt_one_right hpos).2 h1
  · intro hneg
    rw [key]
    constructor
    · nlinarith
    · nlinarith
  · intro x y hy
    constructor <;>
      simp [applyBinop, Value.isComplexV, Value.isZero, Value.toZ?, Value.toQ?, hy]

/-- C5 witness: `-7.5 // 2` floors to `-4` (truncation would give `-3`) and
`-7.5 % 2` is `0.5`, carrying the divisor's sign. -/
theorem C5_witness :
    applyBinop .floorDiv (.float (-15/2)) (.float 2) = .ok (.float (-4)) ∧
    applyBinop .mod (.float (-15/2)) (.float 2) = .ok (.float (1/2)) := by
  have h := C5_floor_division_mod (-15/2 : ℚ) 2 (by norm_num)
  have hf : (⌊(-15/2 : ℚ) / 2⌋ : ℤ) = -4 := by with_unfolding_all rfl
  constructor
  · rw [h.1, hf]; norm_num
  · rw [h.2.1, hf]; norm_num

/-- C6: operator precedence and associativity follow the conventional rules:
`**` is right-associative (`2 ** 3 ** 2` is `512`), unary minus binds looser
than `**` (`-2 ** 2` is `-4`), and `*` binds tighter than `+`
(`2 + 3 * 4` is `14`). -/
theorem C6_precedence :
    evaluate_expression "2 ** 3 ** 2" = .ok (.int 512) ∧
    evaluate_expression "-2 ** 2" = .ok (.int (-4)) ∧
    evaluate_expression "2 + 3 * 4" = .ok (.int 14) := by
  refine ⟨?_, ?_, ?_⟩ <;> with_unfolding_all rfl

/-- C7: `factorial` rejects any float argument with a nonzero fractional
part and any negative integer with `InvalidArgument`, while
`factorial(4)` evaluates to `24`. -/
theorem C7_factorial :
    (∀ q : ℚ, q.den ≠ 1 →
      applyFunc "factorial" [.float q] = .error .invalidArgument) ∧
    (∀ n : ℤ, n < 0 →
      applyFunc "factorial" [.int n] = .error .invalidArgument) ∧
    evaluate_expression "factorial(3.5)" = .error .invalidArgument ∧
    evaluate_expression "factorial(4)" = .ok (.int 24) := by
  refine ⟨?_, ?_, by with_unfolding_all rfl, by with_unfolding_all rfl⟩
  · intro q _
    with_unfolding_all rfl
  · intro n hn
    simp [applyFunc, applyUnaryFun, factorialFun, hn]

/-- C7 witness: the theorem applied at `3.5` and `-1`. -/
theorem C7_witness :
    applyFunc "factorial" [.float (7/2)] = .error .invalidArgument ∧
    applyFunc "factorial" [.int (-1)] = .error .invalidArgument :=
  ⟨C7_factorial.1 (7/2) (by with_unfolding_all decide),
   C7_factorial.2.1 (-1) (by decide)⟩

/-- C9: the boolean literals `True` and `False` are accepted (a `bool`
constant passes the `int`/`float` literal check, `bool` being an `int`
subclass) and evaluate to the host booleans, whose numeric values are `1`
and `0`: their rational value is 1 and 0, and adding `0` to them yields the
ints `1` and `0`. -/
theorem C9_bool_literals :
    evaluate_expression "True" = .ok (.bool true) ∧
    evaluate_expression "False" = .ok (.bool false) ∧
    (Value.bool true).toQ? = some 1 ∧
    (Value.bool false).toQ? = some 0 ∧
    applyBinop .add (.bool true) (.int 0) = .ok (.int 1) ∧
    applyBinop .add (.bool false) (.int 0) = .ok (.int 0) := by
  refine ⟨?_, ?_, ?_, ?_, ?_, ?_⟩ <;> with_unfolding_all rfl

/-- C10: in a call with keyword arguments, the positional arguments are
evaluated first — an error there (e.g. division by zero) is reported instead
of the keyword-argument rejection — and keyword-argument values are never
evaluated: the result does not depend on what the keyword values are. -/
theorem C10_call_evaluation_order :
    (∀ (f : String) (args : PyExprList) (kws : PyKwList) (er : Err),
      ALLOWED_FUNCTIONS.contains f = true →
      visitList args = .error er →
      visit (.call (.name f) args kws) = .error er) ∧
    (∀ (f : PyExpr) (args : PyExprList) (kws kws' : PyKwList),
      kws ≠ .nil → kws' ≠ .nil →
      visit (.call f args kws) = visit (.call f args kws')) := by
  constructor
  · intro f args kws er hf hargs
    have hf' : f ∈ ALLOWED_FUNCTIONS := by simpa using hf
    simp [visit, hf', hargs]
  · intro f args kws kws' h h'
    match kws, kws' with
    | .nil, _ => exact absurd rfl h
    | _, .nil => exact absurd rfl h'
    | .cons n v ks, .cons n' v' ks' =>
      cases f <;> simp [visit]

/-- C10 witness: `sin(1/0, x=1)` reports the division by zero from the
positional argument, not the keyword-argument error. -/
theorem C10_witness :
    visit (.call (.name "sin")
      (.cons (.binOp .div (.const (.int 1)) (.const (.int 0))) .nil)
      (.cons "x" (.const (.int 1)) .nil)) = .error .zeroDivision :=
  C10_call_evaluation_order.1 "sin"
    (.cons (.binOp .div (.const (.int 1)) (.const (.int 0))) .nil)
    (.cons "x" (.const (.int 1)) .nil) .zeroDivision
    (by with_unfolding_all rfl) (by with_unfolding_all rfl)
